import Mathlib

/-! Verification development for the PitWall time-series forecasting and
pattern-detection core, a shallow embedding of
`src/analytics/advancedForecasting.ts` and `src/analytics/patternDetector.ts`.

JavaScript numbers are modelled as exact rationals.  Every comparison the
source performs against a square root (`Math.sqrt`) is embedded by the
algebraically equivalent comparison of squares, which is exact for
nonnegative operands.  Square roots that feed arithmetic (and no claim)
are abstracted by an explicit `sqrtFn` parameter.  JavaScript
`Array.prototype.sort` is a stable sort (ECMAScript 2019); a stable sort is a
unique function of the comparison and is embedded by the structural
`List.insertionSort`. -/

namespace PitWall

/-- JavaScript `a || b` on numbers: `b` when `a` is `0`, otherwise `a`. -/
def jsOr (a b : ℚ) : ℚ := if a = 0 then b else a

/-- JavaScript `Math.round`: half-up rounding. -/
def jsRound (q : ℚ) : ℚ := ((⌊q + 1/2⌋ : ℤ) : ℚ)

/-- A time-series sample (`DataPoint` in `advancedForecasting.ts`): an
epoch-milliseconds timestamp and a numeric value. -/
structure DataPoint where
  timestamp : ℕ
  value : ℚ
deriving DecidableEq

/-- Population mean of a list of values
(`values.reduce((a, b) => a + b, 0) / values.length`). -/
def meanOf (values : List ℚ) : ℚ := values.sum / values.length

/-- Population variance, the mean of squared deviations.  The source stores
its square root as `stdDev`; comparisons against `stdDev` are embedded as
comparisons of squares. -/
def varOf (values : List ℚ) : ℚ :=
  (values.map (fun v => (v - meanOf values) ^ 2)).sum / values.length

/-- The z-score outlier test of `detectAndRemoveOutliers`:
`Math.abs((val - mean) / (stdDev || 1)) > 3`.  When `stdDev = 0` the source
divides by `1`; otherwise, for `stdDev > 0`,
`|v - mean| / stdDev > 3` holds iff `(v - mean) ^ 2 > 9 * variance`. -/
def zFlag (mu sigma2 v : ℚ) : Bool :=
  if sigma2 = 0 then decide (3 < |v - mu|) else decide (9 * sigma2 < (v - mu) ^ 2)

/-- `[...values].sort((a, b) => a - b)`: ascending stable sort of the values. -/
def sortedValues (values : List ℚ) : List ℚ := values.insertionSort (· ≤ ·)

/-- `sorted[Math.floor(sorted.length * 0.25)] || 0`.  The product `n * 0.25`
is exact in binary floating point, so the index is `n / 4`. -/
def q1Of (values : List ℚ) : ℚ := (sortedValues values).getD (values.length / 4) 0

/-- `sorted[Math.floor(sorted.length * 0.75)] || 0`.  The product `n * 0.75`
is exact in binary floating point for list lengths, so the index is
`3 * n / 4`. -/
def q3Of (values : List ℚ) : ℚ := (sortedValues values).getD (3 * values.length / 4) 0

/-- The IQR outlier test: `val < lowerBound || val > upperBound`. -/
def iqrFlag (lo hi v : ℚ) : Bool := decide (v < lo) || decide (hi < v)

/-- The combined outlier predicate of `detectAndRemoveOutliers`.  Both tests
of the source depend only on the sample value (never on its position), so the
per-index flag set of the source is exactly the set of indices whose value
satisfies this predicate. -/
def outlierFlag (values : List ℚ) (v : ℚ) : Bool :=
  let q1 := q1Of values
  let q3 := q3Of values
  let iqr := q3 - q1
  zFlag (meanOf values) (varOf values) v ||
    iqrFlag (q1 - 3/2 * iqr) (q3 + 3/2 * iqr) v

/-- Result record of the outlier cleaner (`CleanedData`). -/
structure CleanedData where
  original : List DataPoint
  cleaned : List DataPoint
  outliers : List DataPoint
  outliersRemoved : ℕ
deriving DecidableEq

/-- `detectAndRemoveOutliers`: below 10 samples everything is kept; otherwise
the samples whose value fails `outlierFlag` are kept in order and the flagged
ones are returned as `outliers`, also in order. -/
def detectAndRemoveOutliers (data : List DataPoint) : CleanedData :=
  if data.length < 10 then ⟨data, data, [], 0⟩
  else
    let values := data.map (·.value)
    ⟨data, data.filter (fun d => ! outlierFlag values d.value),
      data.filter (fun d => outlierFlag values d.value),
      (data.filter (fun d => outlierFlag values d.value)).length⟩

/-- Modelled from the spec: the z-rule as the claim states it, with a
`max(std, 1)` denominator instead of the `stdDev || 1` of the source.
`max(std, 1) = 1` iff `variance ≤ 1`, in which case the test is
`|v - mean| > 3`; otherwise the denominator is `std` and the test is
`(v - mean) ^ 2 > 9 * variance`. -/
def zFlagSpecMax (mu sigma2 v : ℚ) : Bool :=
  if sigma2 ≤ 1 then decide (3 < |v - mu|) else decide (9 * sigma2 < (v - mu) ^ 2)

/-- Modelled from the spec: the removal rule exactly as claim C4 words it,
the union of the spec-stated z-rule (with its `max(std, 1)` denominator) and
the IQR rule. -/
def outlierFlagSpec (values : List ℚ) (v : ℚ) : Bool :=
  let q1 := q1Of values
  let q3 := q3Of values
  let iqr := q3 - q1
  zFlagSpecMax (meanOf values) (varOf values) v ||
    iqrFlag (q1 - 3/2 * iqr) (q3 + 3/2 * iqr) v

/-- The removal rule the code actually implements, written independently of
the embedding of `detectAndRemoveOutliers` as a proposition: z-rule with the
`stdDev || 1` denominator of the source, or the IQR rule. -/
def amendedRemoveRule (values : List ℚ) (v : ℚ) : Prop :=
  (varOf values ≠ 0 ∧ 9 * varOf values < (v - meanOf values) ^ 2) ∨
  (varOf values = 0 ∧ 3 < |v - meanOf values|) ∨
  v < q1Of values - 3/2 * (q3Of values - q1Of values) ∨
  q3Of values + 3/2 * (q3Of values - q1Of values) < v

instance (values : List ℚ) (v : ℚ) : Decidable (amendedRemoveRule values v) := by
  unfold amendedRemoveRule; infer_instance

lemma outlierFlag_eq_amended (values : List ℚ) (v : ℚ) :
    outlierFlag values v = decide (amendedRemoveRule values v) := by
  by_cases h : varOf values = 0 <;>
    simp [outlierFlag, zFlag, iqrFlag, amendedRemoveRule, h, Bool.or_assoc]

/-- Concrete input refuting claim C4: twelve samples at 0, three at 1 and one
at 5/2.  Its variance is 471/1024 < 1, so the source divides the z-score of
the sample at 5/2 (deviation 69/32) by `stdDev` ≈ 0.678 and removes it, while
the claim formula divides by `max(std, 1) = 1` and keeps it; the IQR bounds
are [-3/2, 5/2], which flag nothing. -/
def dataC4 : List DataPoint :=
  [⟨0, 0⟩, ⟨1, 0⟩, ⟨2, 0⟩, ⟨3, 0⟩, ⟨4, 0⟩, ⟨5, 0⟩, ⟨6, 0⟩, ⟨7, 0⟩, ⟨8, 0⟩,
   ⟨9, 0⟩, ⟨10, 0⟩, ⟨11, 0⟩, ⟨12, 1⟩, ⟨13, 1⟩, ⟨14, 1⟩, ⟨15, 5/2⟩]

/-- The values of `dataC4`. -/
def valuesC4 : List ℚ :=
  [0, 0, 0, 0, 0, 0, 0, 0, 0, 0, 0, 0, 1, 1, 1, 5/2]

lemma valuesC4_eq : dataC4.map (·.value) = valuesC4 := rfl

lemma meanC4 : meanOf valuesC4 = 11/32 := by norm_num [meanOf, valuesC4]

lemma varC4 : varOf valuesC4 = 471/1024 := by
  simp only [varOf, meanC4]
  norm_num [valuesC4]

lemma sortedC4 : sortedValues valuesC4 = valuesC4 := by
  norm_num [sortedValues, valuesC4, List.insertionSort, List.orderedInsert]

lemma q1C4 : q1Of valuesC4 = 0 := by
  simp only [q1Of, sortedC4]
  norm_num [valuesC4]

lemma q3C4 : q3Of valuesC4 = 1 := by
  simp only [q3Of, sortedC4]
  norm_num [valuesC4]

lemma flagC4_zero : outlierFlag valuesC4 0 = false := by
  simp only [outlierFlag, zFlag, iqrFlag, meanC4, varC4, q1C4, q3C4]
  norm_num [abs_le]

lemma flagC4_one : outlierFlag valuesC4 1 = false := by
  simp only [outlierFlag, zFlag, iqrFlag, meanC4, varC4, q1C4, q3C4]
  norm_num [abs_le]

lemma flagC4_big : outlierFlag valuesC4 (5/2) = true := by
  simp only [outlierFlag, zFlag, iqrFlag, meanC4, varC4, q1C4, q3C4]
  norm_num [abs_le]

lemma specFlagC4_zero : outlierFlagSpec valuesC4 0 = false := by
  simp only [outlierFlagSpec, zFlagSpecMax, iqrFlag, meanC4, varC4, q1C4, q3C4]
  norm_num [abs_le]

lemma specFlagC4_one : outlierFlagSpec valuesC4 1 = false := by
  simp only [outlierFlagSpec, zFlagSpecMax, iqrFlag, meanC4, varC4, q1C4, q3C4]
  norm_num [abs_le]

lemma specFlagC4_big : outlierFlagSpec valuesC4 (5/2) = false := by
  simp only [outlierFlagSpec, zFlagSpecMax, iqrFlag, meanC4, varC4, q1C4, q3C4]
  norm_num [abs_le]

/-- C4: counterexample.  On `dataC4` the cleaner removes the sample at 5/2
(the source z-score uses the `stdDev || 1` denominator and 471/1024 < 1), but
the removal rule exactly as the claim words it — z-score with denominator
`max(std, 1)`, or outside the IQR fences — flags nothing, so the removed set
is not the union the claim describes. -/
theorem claimC4_counterexample :
    (detectAndRemoveOutliers dataC4).outliers = [⟨15, 5/2⟩] ∧
    dataC4.filter (fun d => outlierFlagSpec (dataC4.map (·.value)) d.value) = [] := by
  have hlen : ¬ dataC4.length < 10 := by decide
  constructor
  · simp only [detectAndRemoveOutliers, if_neg hlen, valuesC4_eq]
    simp [dataC4, List.filter_cons, flagC4_zero, flagC4_one, flagC4_big]
  · simp only [valuesC4_eq]
    simp [dataC4, List.filter_cons, specFlagC4_zero, specFlagC4_one, specFlagC4_big]

/-- C4 (amended): for every input of length at least 10, the removed set is
exactly the set of samples satisfying the union rule with the z-score
denominator the source actually uses (`stdDev` when it is nonzero, else 1)
together with the IQR rule, and the kept samples are exactly the complement,
both in input order. -/
theorem claimC4_amended (data : List DataPoint) (h : 10 ≤ data.length) :
    (detectAndRemoveOutliers data).outliers
      = data.filter (fun d => decide (amendedRemoveRule (data.map (·.value)) d.value)) ∧
    (detectAndRemoveOutliers data).cleaned
      = data.filter (fun d => ! decide (amendedRemoveRule (data.map (·.value)) d.value)) := by
  have h' : ¬ data.length < 10 := by omega
  constructor <;>
    simp only [detectAndRemoveOutliers, if_neg h', outlierFlag_eq_amended]

/-- C4 (amended), witness at `dataC4`. -/
theorem claimC4_amended_witness :
    (detectAndRemoveOutliers dataC4).outliers
      = dataC4.filter (fun d => decide (amendedRemoveRule (dataC4.map (·.value)) d.value)) ∧
    (detectAndRemoveOutliers dataC4).cleaned
      = dataC4.filter (fun d => ! decide (amendedRemoveRule (dataC4.map (·.value)) d.value)) :=
  claimC4_amended dataC4 (by norm_num [dataC4])

/-- C6: the cleaner partitions its input exactly: `cleaned ++ outliers` is a
permutation of the input (no sample lost, duplicated or invented), both parts
are sublists of the input (relative order preserved), every input sample is
in exactly one part, and on inputs shorter than 10 the cleaner is the
identity. -/
theorem claimC6_partition (data : List DataPoint) :
    ((detectAndRemoveOutliers data).cleaned ++ (detectAndRemoveOutliers data).outliers).Perm data ∧
    (detectAndRemoveOutliers data).cleaned.Sublist data ∧
    (detectAndRemoveOutliers data).outliers.Sublist data ∧
    (∀ d, d ∈ data ↔
      d ∈ (detectAndRemoveOutliers data).cleaned ∨ d ∈ (detectAndRemoveOutliers data).outliers) ∧
    (∀ d, ¬ (d ∈ (detectAndRemoveOutliers data).cleaned ∧
             d ∈ (detectAndRemoveOutliers data).outliers)) ∧
    (data.length < 10 →
      (detectAndRemoveOutliers data).cleaned = data ∧
      (detectAndRemoveOutliers data).outliers = []) := by
  by_cases h : data.length < 10
  · have e : detectAndRemoveOutliers data = ⟨data, data, [], 0⟩ := by
      simp [detectAndRemoveOutliers, h]
    rw [e]
    refine ⟨?_, ?_, ?_, ?_, ?_, ?_⟩
    · simp
    · exact List.Sublist.refl data
    · exact List.nil_sublist data
    · intro d; simp
    · intro d; simp
    · intro _; exact ⟨rfl, rfl⟩
  · have e : detectAndRemoveOutliers data =
        ⟨data, data.filter (fun d => ! outlierFlag (data.map (·.value)) d.value),
          data.filter (fun d => outlierFlag (data.map (·.value)) d.value),
          (data.filter (fun d => outlierFlag (data.map (·.value)) d.value)).length⟩ := by
      simp [detectAndRemoveOutliers, h]
    rw [e]
    refine ⟨?_, ?_, ?_, ?_, ?_, ?_⟩
    · have := List.filter_append_perm
        (fun d => ! outlierFlag (data.map (·.value)) d.value) data
      simpa [Bool.not_not] using this
    · exact List.filter_sublist data
    · exact List.filter_sublist data
    · intro d
      constructor
      · intro hd
        by_cases hf : outlierFlag (data.map (·.value)) d.value = true
        · exact Or.inr (List.mem_filter.mpr ⟨hd, hf⟩)
        · exact Or.inl (List.mem_filter.mpr ⟨hd, by simp [hf]⟩)
      · rintro (hd | hd) <;> exact (List.mem_filter.mp hd).1
    · intro d hd
      obtain ⟨h1, h2⟩ := hd
      have e1 := (List.mem_filter.mp h1).2
      have e2 := (List.mem_filter.mp h2).2
      simp [e2] at e1
    · intro hlt; exact absurd hlt h

/-- C6, witness at a one-element input. -/
theorem claimC6_partition_witness :
    ((detectAndRemoveOutliers [⟨0, 1⟩]).cleaned ++
      (detectAndRemoveOutliers [⟨0, 1⟩]).outliers).Perm [(⟨0, 1⟩ : DataPoint)] ∧
    (detectAndRemoveOutliers [⟨0, 1⟩]).cleaned.Sublist [(⟨0, 1⟩ : DataPoint)] ∧
    (detectAndRemoveOutliers [⟨0, 1⟩]).outliers.Sublist [(⟨0, 1⟩ : DataPoint)] ∧
    (∀ d, d ∈ [(⟨0, 1⟩ : DataPoint)] ↔
      d ∈ (detectAndRemoveOutliers [⟨0, 1⟩]).cleaned ∨
        d ∈ (detectAndRemoveOutliers [⟨0, 1⟩]).outliers) ∧
    (∀ d, ¬ (d ∈ (detectAndRemoveOutliers [⟨0, 1⟩]).cleaned ∧
             d ∈ (detectAndRemoveOutliers [⟨0, 1⟩]).outliers)) ∧
    ([(⟨0, 1⟩ : DataPoint)].length < 10 →
      (detectAndRemoveOutliers [⟨0, 1⟩]).cleaned = [(⟨0, 1⟩ : DataPoint)] ∧
      (detectAndRemoveOutliers [⟨0, 1⟩]).outliers = []) :=
  claimC6_partition [⟨0, 1⟩]

lemma sum_map_eq_sum_range (f : ℚ → ℚ) :
    ∀ l : List ℚ, (l.map f).sum = ∑ i ∈ Finset.range l.length, f (l.getD i 0)
  | [] => by simp
  | a :: l => by
    rw [List.map_cons, List.sum_cons, sum_map_eq_sum_range f l,
      List.length_cons, Finset.sum_range_succ']
    simp [add_comm]

lemma varOf_nonneg (values : List ℚ) : 0 ≤ varOf values := by
  unfold varOf
  apply div_nonneg
  · apply List.sum_nonneg
    intro x hx
    obtain ⟨v, _, rfl⟩ := List.mem_map.mp hx
    positivity
  · exact_mod_cast Nat.zero_le _

lemma sum_sq_eq (values : List ℚ) (h : values ≠ []) :
    (values.map (fun v => (v - meanOf values) ^ 2)).sum
      = values.length * varOf values := by
  have hn : (values.length : ℚ) ≠ 0 := by
    simpa using fun hh => h (List.length_eq_zero.mp hh)
  rw [varOf, mul_comm, div_mul_cancel₀ _ hn]

lemma sortedValues_perm (values : List ℚ) : (sortedValues values).Perm values :=
  List.perm_insertionSort _ values

lemma sortedValues_length (values : List ℚ) :
    (sortedValues values).length = values.length :=
  (sortedValues_perm values).length_eq

lemma sortedValues_mono (values : List ℚ) {i j : ℕ} (hij : i ≤ j)
    (hj : j < values.length) :
    (sortedValues values).getD i 0 ≤ (sortedValues values).getD j 0 := by
  have hj' : j < (sortedValues values).length := by rwa [sortedValues_length]
  have hi' : i < (sortedValues values).length := lt_of_le_of_lt hij hj'
  have hs := List.sorted_insertionSort (· ≤ ·) values
  have := hs.rel_get_of_le (a := ⟨i, hi'⟩) (b := ⟨j, hj'⟩) hij
  simpa [List.getD, List.getElem?_eq_getElem, hi', hj'] using this

lemma sortedValues_getD_mem (values : List ℚ) {i : ℕ} (hi : i < values.length) :
    (sortedValues values).getD i 0 ∈ values := by
  have hi' : i < (sortedValues values).length := by rwa [sortedValues_length]
  have : (sortedValues values).getD i 0 = (sortedValues values).get ⟨i, hi'⟩ := by
    simp [List.getD, List.getElem?_eq_getElem, hi']
  rw [this]
  exact (sortedValues_perm values).mem_iff.mp (List.get_mem _ _ _)

lemma zero_of_sq_sum_zero {values : List ℚ} (h : values ≠ [])
    (hvar : varOf values = 0) : ∀ v ∈ values, v = meanOf values := by
  intro v hv
  have hsum := sum_sq_eq values h
  rw [hvar, mul_zero] at hsum
  have hz := List.all_zero_of_le_zero_le_of_sum_eq_zero
    (l := values.map (fun v => (v - meanOf values) ^ 2))
    (fun x hx => by obtain ⟨w, _, rfl⟩ := List.mem_map.mp hx; positivity) hsum
    (x := (v - meanOf values) ^ 2) (List.mem_map_of_mem _ hv)
  have := pow_eq_zero_iff (n := 2) (by norm_num) |>.mp hz
  linarith [this]

/-- At least one value of every series of length at least 10 survives both
outlier tests: the z-test flags fewer than a ninth of the samples (the
flagged squared deviations each exceed nine times their own average), while
every value between the two quartiles — more than half of the samples — is
inside the IQR fences. -/
lemma exists_unflagged (values : List ℚ) (h10 : 10 ≤ values.length) :
    ∃ v ∈ values, outlierFlag values v = false := by
  have hnil : values ≠ [] := by
    intro hh; rw [hh] at h10; simp at h10
  have hiqr : ∀ p, values.length / 4 ≤ p → p ≤ 3 * values.length / 4 →
      iqrFlag (q1Of values - 3/2 * (q3Of values - q1Of values))
        (q3Of values + 3/2 * (q3Of values - q1Of values))
        ((sortedValues values).getD p 0) = false := by
    intro p hp1 hp2
    have h1 : q1Of values ≤ (sortedValues values).getD p 0 :=
      sortedValues_mono values hp1 (by omega)
    have h2 : (sortedValues values).getD p 0 ≤ q3Of values :=
      sortedValues_mono values hp2 (by omega)
    simp only [iqrFlag, Bool.or_eq_false_iff, decide_eq_false_iff_not, not_lt]
    constructor <;> linarith
  by_cases hz : ∃ p, values.length / 4 ≤ p ∧ p ≤ 3 * values.length / 4 ∧
      zFlag (meanOf values) (varOf values) ((sortedValues values).getD p 0) = false
  · obtain ⟨p, hp1, hp2, hzp⟩ := hz
    refine ⟨(sortedValues values).getD p 0, sortedValues_getD_mem values (by omega), ?_⟩
    simp only [outlierFlag, Bool.or_eq_false_iff]
    exact ⟨hzp, hiqr p hp1 hp2⟩
  · exfalso
    push_neg at hz
    have hz' : ∀ p, values.length / 4 ≤ p → p ≤ 3 * values.length / 4 →
        zFlag (meanOf values) (varOf values) ((sortedValues values).getD p 0) = true := by
      intro p hp1 hp2
      have := hz p hp1 hp2
      revert this
      cases zFlag (meanOf values) (varOf values) ((sortedValues values).getD p 0) <;> simp
    by_cases hv0 : varOf values = 0
    · have hmu := zero_of_sq_sum_zero hnil hv0
        ((sortedValues values).getD (values.length / 4) 0)
        (sortedValues_getD_mem values (by omega))
      have := hz' (values.length / 4) le_rfl (by omega)
      rw [zFlag, if_pos hv0, hmu] at this
      simp at this
      exact absurd this (by norm_num)
    · have hvpos : 0 < varOf values := lt_of_le_of_ne (varOf_nonneg values) (Ne.symm hv0)
      have hW : ∀ p ∈ Finset.Icc (values.length / 4) (3 * values.length / 4),
          9 * varOf values ≤ ((sortedValues values).getD p 0 - meanOf values) ^ 2 := by
        intro p hp
        rw [Finset.mem_Icc] at hp
        have := hz' p hp.1 hp.2
        rw [zFlag, if_neg hv0] at this
        exact le_of_lt (by simpa using this)
      have hcard := Finset.card_nsmul_le_sum
        (Finset.Icc (values.length / 4) (3 * values.length / 4))
        (fun p => ((sortedValues values).getD p 0 - meanOf values) ^ 2)
        (9 * varOf values) hW
      have hsub : (∑ p ∈ Finset.Icc (values.length / 4) (3 * values.length / 4),
            ((sortedValues values).getD p 0 - meanOf values) ^ 2)
          ≤ ∑ p ∈ Finset.range values.length,
            ((sortedValues values).getD p 0 - meanOf values) ^ 2 := by
        apply Finset.sum_le_sum_of_subset_of_nonneg
        · intro p hp
          rw [Finset.mem_Icc] at hp
          rw [Finset.mem_range]
          omega
        · intro i _ _
          positivity
      have htot : (∑ p ∈ Finset.range values.length,
            ((sortedValues values).getD p 0 - meanOf values) ^ 2)
          = values.length * varOf values := by
        calc (∑ p ∈ Finset.range values.length,
              ((sortedValues values).getD p 0 - meanOf values) ^ 2)
            = ∑ p ∈ Finset.range (sortedValues values).length,
              ((sortedValues values).getD p 0 - meanOf values) ^ 2 := by
              rw [sortedValues_length]
          _ = ((sortedValues values).map (fun v => (v - meanOf values) ^ 2)).sum :=
              (sum_map_eq_sum_range (fun v => (v - meanOf values) ^ 2)
                (sortedValues values)).symm
          _ = (values.map (fun v => (v - meanOf values) ^ 2)).sum :=
              ((sortedValues_perm values).map _).sum_eq
          _ = values.length * varOf values := sum_sq_eq values hnil
      have hfin : ((Finset.Icc (values.length / 4) (3 * values.length / 4)).card : ℚ)
          * (9 * varOf values) ≤ values.length * varOf values := by
        calc ((Finset.Icc (values.length / 4) (3 * values.length / 4)).card : ℚ)
              * (9 * varOf values)
            = (Finset.Icc (values.length / 4) (3 * values.length / 4)).card
              • (9 * varOf values) := by rw [nsmul_eq_mul]
          _ ≤ _ := le_trans hcard (le_trans hsub (le_of_eq htot))
      have hnat : (Finset.Icc (values.length / 4) (3 * values.length / 4)).card * 9
          ≤ values.length := by
        have h2 : (((Finset.Icc (values.length / 4) (3 * values.length / 4)).card * 9 : ℚ))
            * varOf values ≤ (values.length : ℚ) * varOf values := by
          calc ((((Finset.Icc (values.length / 4) (3 * values.length / 4)).card : ℚ) * 9))
                * varOf values
              = ((Finset.Icc (values.length / 4) (3 * values.length / 4)).card : ℚ)
                * (9 * varOf values) := by ring
            _ ≤ (values.length : ℚ) * varOf values := hfin
        have h3 := le_of_mul_le_mul_right h2 hvpos
        exact_mod_cast h3
      rw [Nat.card_Icc] at hnat
      omega

/-- C10: a non-empty input always produces a non-empty cleaned series, and in
particular a sample whose value lies between the two quartiles and within one
standard deviation of the mean (squared deviation at most the variance) is
never removed. -/
theorem claimC10_nonempty (data : List DataPoint) (h : data ≠ []) :
    (detectAndRemoveOutliers data).cleaned ≠ [] ∧
    (∀ d ∈ data, 10 ≤ data.length →
      q1Of (data.map (·.value)) ≤ d.value →
      d.value ≤ q3Of (data.map (·.value)) →
      (d.value - meanOf (data.map (·.value))) ^ 2 ≤ varOf (data.map (·.value)) →
      d ∈ (detectAndRemoveOutliers data).cleaned) := by
  by_cases hlen : data.length < 10
  · have e : detectAndRemoveOutliers data = ⟨data, data, [], 0⟩ := by
      simp [detectAndRemoveOutliers, hlen]
    rw [e]
    exact ⟨h, fun d hd _ _ _ _ => hd⟩
  · have e : detectAndRemoveOutliers data =
        ⟨data, data.filter (fun d => ! outlierFlag (data.map (·.value)) d.value),
          data.filter (fun d => outlierFlag (data.map (·.value)) d.value),
          (data.filter (fun d => outlierFlag (data.map (·.value)) d.value)).length⟩ := by
      simp [detectAndRemoveOutliers, hlen]
    rw [e]
    constructor
    · have h10 : 10 ≤ (data.map (·.value)).length := by
        simpa using Nat.le_of_not_lt hlen
      obtain ⟨v, hv, hflag⟩ := exists_unflagged (data.map (·.value)) h10
      obtain ⟨d, hd, rfl⟩ := List.mem_map.mp hv
      intro hcon
      rw [List.filter_eq_nil_iff] at hcon
      exact hcon d hd (by simp [hflag])
    · intro d hd _ hq1 hq3 hvar
      apply List.mem_filter.mpr
      refine ⟨hd, ?_⟩
      have hzf : zFlag (meanOf (data.map (·.value))) (varOf (data.map (·.value)))
          d.value = false := by
        rw [zFlag]
        by_cases hv0 : varOf (data.map (·.value)) = 0
        · rw [if_pos hv0]
          rw [hv0] at hvar
          have hdz : d.value - meanOf (data.map (·.value)) = 0 := by
            nlinarith [sq_nonneg (d.value - meanOf (data.map (·.value)))]
          simp [hdz]
        · rw [if_neg hv0]
          have h9 : varOf (data.map (·.value)) ≤ 9 * varOf (data.map (·.value)) := by
            nlinarith [varOf_nonneg (data.map (·.value))]
          simp only [decide_eq_false_iff_not, not_lt]
          linarith
      have hif : iqrFlag
          (q1Of (data.map (·.value)) -
            3/2 * (q3Of (data.map (·.value)) - q1Of (data.map (·.value))))
          (q3Of (data.map (·.value)) +
            3/2 * (q3Of (data.map (·.value)) - q1Of (data.map (·.value))))
          d.value = false := by
        simp only [iqrFlag, Bool.or_eq_false_iff, decide_eq_false_iff_not, not_lt]
        constructor <;> linarith
      simp [outlierFlag, hzf, hif]

/-- C10, witness at a one-element input. -/
theorem claimC10_nonempty_witness :
    (detectAndRemoveOutliers [⟨0, 5⟩]).cleaned ≠ [] ∧
    (∀ d ∈ [(⟨0, 5⟩ : DataPoint)], 10 ≤ [(⟨0, 5⟩ : DataPoint)].length →
      q1Of ([(⟨0, 5⟩ : DataPoint)].map (·.value)) ≤ d.value →
      d.value ≤ q3Of ([(⟨0, 5⟩ : DataPoint)].map (·.value)) →
      (d.value - meanOf ([(⟨0, 5⟩ : DataPoint)].map (·.value))) ^ 2
        ≤ varOf ([(⟨0, 5⟩ : DataPoint)].map (·.value)) →
      d ∈ (detectAndRemoveOutliers [⟨0, 5⟩]).cleaned) :=
  claimC10_nonempty [⟨0, 5⟩] (by simp)

/-- One absolute percentage error term of the `calculateMAPE` loop:
`Math.abs((actual - forecast) / (actual || 1))` with the naive forecast
`values[i - 1] || actual`. -/
def apeAt (values : List ℚ) (i : ℕ) : ℚ :=
  |(values.getD i 0 - jsOr (values.getD (i - 1) 0) (values.getD i 0)) /
    jsOr (values.getD i 0) 1|

/-- The validation window size of `calculateMAPE`:
`Math.min(7, Math.floor(n * 0.2))`.  The float product `n * 0.2` never floors
across an integer, so the floor is `n / 5`. -/
def mapeWindowSize (n : ℕ) : ℕ := min 7 (n / 5)

/-- `calculateMAPE`: below 10 samples a fixed default of 20; otherwise the
mean absolute percentage error of the naive previous-value forecast over the
trailing `mapeWindowSize` points, with the source zero-guards, capped
at 100. -/
def calculateMAPE (data : List DataPoint) : ℚ :=
  if data.length < 10 then 20
  else
    min ((((List.range' (data.length - mapeWindowSize data.length)
        (mapeWindowSize data.length)).map
          (apeAt (data.map (·.value)))).sum / mapeWindowSize data.length) * 100) 100

/-- Modelled from the spec: `calculateMAPE` exactly as claim C3 words it,
with a trailing validation window of 20 percent of `n` but never FEWER than
7 points, i.e. `max 7 (n / 5)`; everything else is kept as in the source so
that the comparison isolates the window size. -/
def calculateMAPESpec (data : List DataPoint) : ℚ :=
  if data.length < 10 then 20
  else
    min ((((List.range' (data.length - max 7 (data.length / 5))
        (max 7 (data.length / 5))).map
          (apeAt (data.map (·.value)))).sum / max 7 (data.length / 5)) * 100) 100

/-- Ten samples, nine at 1 and the last at 2, refuting claim C3: the code
validates on `min(7, ⌊10/5⌋) = 2` trailing points and returns 25, while a
window of at least 7 points as the claim states would return 50/7. -/
def dataC3 : List DataPoint :=
  [⟨0, 1⟩, ⟨1, 1⟩, ⟨2, 1⟩, ⟨3, 1⟩, ⟨4, 1⟩, ⟨5, 1⟩, ⟨6, 1⟩, ⟨7, 1⟩, ⟨8, 1⟩, ⟨9, 2⟩]

/-- C3: counterexample.  On `dataC3` (length 10) the source validates over
`min(7, 20% of 10) = 2` points and returns 25; the window the claim
describes (at least 7 points) yields 50/7, so the two disagree. -/
theorem claimC3_counterexample :
    calculateMAPE dataC3 = 25 ∧ calculateMAPESpec dataC3 = 50/7 ∧
    calculateMAPE dataC3 ≠ calculateMAPESpec dataC3 := by
  have habs : |(1 : ℚ)/2| = 1/2 := by
    rw [abs_of_nonneg]; norm_num
  have h1 : calculateMAPE dataC3 = 25 := by
    rw [calculateMAPE, if_neg (by decide)]
    norm_num [dataC3, List.range', jsOr, apeAt, mapeWindowSize, habs, min_def]
  have h2 : calculateMAPESpec dataC3 = 50/7 := by
    rw [calculateMAPESpec, if_neg (by decide)]
    norm_num [dataC3, List.range', jsOr, apeAt, habs, min_def]
  refine ⟨h1, h2, ?_⟩
  rw [h1, h2]; norm_num

lemma sum_map_range' (f : ℕ → ℚ) :
    ∀ (b a : ℕ), ((List.range' a b).map f).sum = ∑ i ∈ Finset.Ico a (a + b), f i
  | 0, a => by simp
  | b + 1, a => by
    rw [List.range'_succ, List.map_cons, List.sum_cons, sum_map_range' f b (a + 1),
      Finset.sum_eq_sum_Ico_succ_bot (by omega : a < a + (b + 1)) f]
    have hab : a + 1 + b = a + (b + 1) := by omega
    rw [hab]

/-- C3 (amended): below 10 samples the result is exactly 20; otherwise the
result is the mean absolute percentage error (in percent, with the source
zero-guards) of the naive previous-value forecast over the trailing window of
20 percent of `n` but never MORE than 7 points, capped at 100. -/
theorem claimC3_amended (data : List DataPoint) :
    (data.length < 10 → calculateMAPE data = 20) ∧
    (10 ≤ data.length → calculateMAPE data =
      min ((∑ i ∈ Finset.Ico (data.length - min 7 (data.length / 5)) data.length,
          apeAt (data.map (·.value)) i)
        / (min 7 (data.length / 5)) * 100) 100) := by
  constructor
  · intro h
    rw [calculateMAPE, if_pos h]
  · intro h
    rw [calculateMAPE, if_neg (by omega)]
    have hle : mapeWindowSize data.length ≤ data.length :=
      le_trans (min_le_right 7 (data.length / 5)) (Nat.div_le_self _ _)
    have hw : data.length - mapeWindowSize data.length + mapeWindowSize data.length
        = data.length := Nat.sub_add_cancel hle
    rw [sum_map_range' (apeAt (data.map (·.value)))
      (mapeWindowSize data.length) (data.length - mapeWindowSize data.length), hw]
    rfl

/-- C3 (amended), witness at `dataC3`. -/
theorem claimC3_amended_witness :
    (dataC3.length < 10 → calculateMAPE dataC3 = 20) ∧
    (10 ≤ dataC3.length → calculateMAPE dataC3 =
      min ((∑ i ∈ Finset.Ico (dataC3.length - min 7 (dataC3.length / 5)) dataC3.length,
          apeAt (dataC3.map (·.value)) i)
        / (min 7 (dataC3.length / 5)) * 100) 100) :=
  claimC3_amended dataC3

/-- The four trend labels of `TrendDirection`. -/
inductive TrendDirection where
  | improving
  | stable
  | degrading
  | critical
deriving DecidableEq

/-- `determineTrend`: stable below a 5 percent absolute change, then, for
increases, critical exactly when the change exceeds 20 percent and the
confidence exceeds 70, degrading otherwise; any decrease is improving. -/
def determineTrend (changePercent confidence : ℚ) : TrendDirection :=
  if |changePercent| < 5 then .stable
  else if 0 < changePercent then
    (if 20 < changePercent ∧ 70 < confidence then .critical else .degrading)
  else .improving

/-- `changePercent` as `forecastMTTR` computes it:
`((predictedValue - currentValue) / (currentValue || 1)) * 100`. -/
def changePercentOf (predicted current : ℚ) : ℚ :=
  (predicted - current) / jsOr current 1 * 100

/-- C8: counterexample.  At `predicted = 53/100`, `current = 1/2` the code
computes `changePercent = (53/100 - 1/2) / (1/2) * 100 = 6` (the divisor
`currentValue || 1` is `1/2`), while the formula of the claim divides by
`max(current, 1) = 1` and yields 3; the code classifies the pair as
degrading although the claim formula would put it below the 5 percent
stability threshold. -/
theorem claimC8_counterexample :
    changePercentOf (53/100) (1/2) = 6 ∧
    (53/100 - 1/2 : ℚ) / max (1/2 : ℚ) 1 * 100 = 3 ∧
    determineTrend (changePercentOf (53/100) (1/2)) 50 = .degrading ∧
    |(3 : ℚ)| < 5 := by
  have h1 : changePercentOf (53/100) (1/2) = 6 := by
    rw [changePercentOf, jsOr, if_neg (by norm_num)]
    norm_num
  refine ⟨h1, by norm_num, ?_, by norm_num⟩
  rw [h1, determineTrend]
  norm_num

/-- C8 (amended): `changePercent` is `(predicted - current)` divided by
`current` itself when it is nonzero (by 1 only when it is zero), times 100;
the classification is as the claim states it: absolute change below 5 is
stable, a positive change is critical exactly when it exceeds 20 with
confidence above 70 and degrading otherwise, and any negative change is
improving regardless of magnitude and confidence. -/
theorem claimC8_amended (p c conf : ℚ) :
    changePercentOf p c = (p - c) / (if c = 0 then 1 else c) * 100 ∧
    (|changePercentOf p c| < 5 → determineTrend (changePercentOf p c) conf = .stable) ∧
    (5 ≤ |changePercentOf p c| → 0 < changePercentOf p c →
      20 < changePercentOf p c → 70 < conf →
      determineTrend (changePercentOf p c) conf = .critical) ∧
    (5 ≤ |changePercentOf p c| → 0 < changePercentOf p c →
      ¬ (20 < changePercentOf p c ∧ 70 < conf) →
      determineTrend (changePercentOf p c) conf = .degrading) ∧
    (5 ≤ |changePercentOf p c| → changePercentOf p c < 0 →
      determineTrend (changePercentOf p c) conf = .improving) := by
  refine ⟨rfl, ?_, ?_, ?_, ?_⟩
  · intro h5
    rw [determineTrend, if_pos h5]
  · intro h5 h0 h20 h70
    rw [determineTrend, if_neg (by linarith), if_pos h0, if_pos ⟨h20, h70⟩]
  · intro h5 h0 hnc
    rw [determineTrend, if_neg (by linarith), if_pos h0, if_neg hnc]
  · intro h5 h0
    rw [determineTrend, if_neg (by linarith), if_neg (by linarith)]

/-- C8 (amended), witness at `predicted = 2`, `current = 1`,
`confidence = 50`. -/
theorem claimC8_amended_witness :
    changePercentOf 2 1 = (2 - 1 : ℚ) / (if (1 : ℚ) = 0 then 1 else 1) * 100 ∧
    (|changePercentOf 2 1| < 5 → determineTrend (changePercentOf 2 1) 50 = .stable) ∧
    (5 ≤ |changePercentOf 2 1| → 0 < changePercentOf 2 1 →
      20 < changePercentOf 2 1 → 70 < (50 : ℚ) →
      determineTrend (changePercentOf 2 1) 50 = .critical) ∧
    (5 ≤ |changePercentOf 2 1| → 0 < changePercentOf 2 1 →
      ¬ (20 < changePercentOf 2 1 ∧ 70 < (50 : ℚ)) →
      determineTrend (changePercentOf 2 1) 50 = .degrading) ∧
    (5 ≤ |changePercentOf 2 1| → changePercentOf 2 1 < 0 →
      determineTrend (changePercentOf 2 1) 50 = .improving) :=
  claimC8_amended 2 1 50

/-- An incident record as `patternDetector.ts` reads it, with the fields its
five detectors use.  `recommendedAction` and `suspectCommits` are optional in
the source (`incident.recommendedAction || 'Unknown'`,
`incident.suspectCommits || 0`). -/
structure Incident where
  issueKey : String
  timestamp : ℕ
  priority : String
  recommendedAction : Option String
  suspectCommits : ℕ
deriving DecidableEq, Inhabited

/-- The five pattern types of `patternDetector.ts`. -/
inductive PatternType where
  | recurringError
  | timeBased
  | componentHotspot
  | cascadingFailure
  | deploymentCorrelation
deriving DecidableEq

/-- A detected pattern (`IncidentPattern` in the source).  Timestamps are
kept as the epoch values the source copies around. -/
structure IncidentPattern where
  patternId : String
  patternType : PatternType
  description : String
  occurrences : ℕ
  firstSeen : ℕ
  lastSeen : ℕ
  affectedComponents : List String
  riskScore : ℕ
  recommendation : String
  relatedIncidents : List String
deriving DecidableEq

/-- `[...new Set(l)]`: deduplication keeping first occurrences, in order. -/
def firstKeys {α : Type} [DecidableEq α] (l : List α) : List α :=
  l.foldl (fun acc x => if x ∈ acc then acc else acc ++ [x]) []

lemma mem_foldl_insertKey {α : Type} [DecidableEq α] (l : List α) :
    ∀ (acc : List α) (a : α),
      (a ∈ l.foldl (fun acc x => if x ∈ acc then acc else acc ++ [x]) acc) ↔
        a ∈ acc ∨ a ∈ l := by
  induction l with
  | nil => intro acc a; simp
  | cons x xs ih =>
    intro acc a
    rw [List.foldl_cons, ih]
    by_cases hx : x ∈ acc
    · rw [if_pos hx]
      simp only [List.mem_cons]
      constructor
      · rintro (h | h)
        exacts [Or.inl h, Or.inr (Or.inr h)]
      · rintro (h | h | h)
        exacts [Or.inl h, Or.inl (h ▸ hx), Or.inr h]
    · rw [if_neg hx]
      simp only [List.mem_append, List.mem_cons, List.mem_singleton]
      tauto

lemma mem_firstKeys {α : Type} [DecidableEq α] (l : List α) (a : α) :
    a ∈ firstKeys l ↔ a ∈ l := by
  rw [firstKeys, mem_foldl_insertKey]
  simp

/-- Hour of day of an epoch-milliseconds timestamp
(`new Date(incident.timestamp).getHours()`), pinned to UTC as the spec
directs for deterministic day and hour derivation. -/
def hourOf (t : ℕ) : ℕ := t / 3600000 % 24

/-- The group of incidents that fall in hour `h` (the `hourCounts` map entry
for `h`), in input order. -/
def hourGroup (incidents : List Incident) (h : ℕ) : List Incident :=
  incidents.filter (fun i => decide (hourOf i.timestamp = h))

/-- The pattern record `detectTimeBasedPatterns` emits for hour `h`. -/
def mkTimePattern (incidents : List Incident) (h : ℕ) : IncidentPattern :=
  { patternId := "timebased_hour_" ++ toString h
    patternType := .timeBased
    description := "High incident rate during hour " ++ toString h ++ ":00-" ++
      toString (h + 1) ++ ":00"
    occurrences := (hourGroup incidents h).length
    firstSeen := ((hourGroup incidents h).getD 0 default).timestamp
    lastSeen := ((hourGroup incidents h).getD ((hourGroup incidents h).length - 1)
      default).timestamp
    affectedComponents := firstKeys ((hourGroup incidents h).map (·.issueKey))
    riskScore := min (30 + 5 * (hourGroup incidents h).length) 80
    recommendation := "Investigate system load and scheduled jobs during hour " ++
      toString h ++ ":00. Consider load balancing."
    relatedIncidents := (hourGroup incidents h).map (·.issueKey) }

/-- The emission condition of `detectTimeBasedPatterns`:
`group.length >= threshold && group.length >= 3` with
`threshold = (incidents.length / 24) * 2`.  An integer count compares with
the floating-point threshold exactly as with the exact rational `total / 12`,
so the condition is `12 * count ≥ total` and `count ≥ 3`. -/
def timePatternCond (incidents : List Incident) (h : ℕ) : Prop :=
  incidents.length ≤ 12 * (hourGroup incidents h).length ∧
    3 ≤ (hourGroup incidents h).length

instance (incidents : List Incident) (h : ℕ) :
    Decidable (timePatternCond incidents h) := by
  unfold timePatternCond; infer_instance

/-- `detectTimeBasedPatterns`: group by hour of day, iterate the hours in
first-appearance order (JavaScript `Map` iteration order), and emit a
pattern for every hour that satisfies `timePatternCond`. -/
def detectTimeBasedPatterns (incidents : List Incident) : List IncidentPattern :=
  (firstKeys (incidents.map (fun i => hourOf i.timestamp))).filterMap (fun h =>
    if timePatternCond incidents h then some (mkTimePattern incidents h) else none)

/-- Incidents of `incidentsC5` at hour 0 (three of them). -/
def mkIncC5 (t : ℕ) : Incident := ⟨"K", t, "Low", none, 0⟩

/-- 36 incidents: 3 in hour 0, 2 in each of hours 1 to 16, 1 in hour 17.
The hour-0 count of 3 equals the threshold `2 * (36 / 24) = 3` exactly, so
the source (which compares with `>=`) emits a pattern while a strict
comparison would not. -/
def incidentsC5 : List Incident :=
  (List.range 3).map (fun k => mkIncC5 (k * 1000)) ++
    ((List.range 16).map (fun h => mkIncC5 ((h + 1) * 3600000)) ++
      ((List.range 16).map (fun h => mkIncC5 ((h + 1) * 3600000 + 1000)) ++
        [mkIncC5 (17 * 3600000)]))

/-- C5: counterexample.  `incidentsC5` has 36 incidents of which exactly 3
fall in hour 0; the source emits the hour-0 pattern because its comparison
with the `2 * (total / 24)` threshold is non-strict, but the count does not
STRICTLY exceed the threshold (`3 = 2 * 36/24`), so the claim predicts no
pattern for hour 0. -/
theorem claimC5_counterexample :
    mkTimePattern incidentsC5 0 ∈ detectTimeBasedPatterns incidentsC5 ∧
    (hourGroup incidentsC5 0).length = 3 ∧
    incidentsC5.length = 36 ∧
    ¬ (incidentsC5.length < 12 * (hourGroup incidentsC5 0).length) := by
  refine ⟨by decide, by decide, by decide, by decide⟩

/-- C5 (amended): the time-based detector emits the pattern for hour `h`
exactly when the hour count is at least (not strictly above) twice the
average `total / 24` and at least 3, and every emitted pattern is the record
for some such hour, with `riskScore = min (30 + 5 * count) 80` and
`occurrences` equal to the hour count. -/
theorem claimC5_amended (incidents : List Incident) :
    (∀ h, incidents.length ≤ 12 * (hourGroup incidents h).length →
      3 ≤ (hourGroup incidents h).length →
      mkTimePattern incidents h ∈ detectTimeBasedPatterns incidents) ∧
    (∀ p ∈ detectTimeBasedPatterns incidents, ∃ h,
      (incidents.length ≤ 12 * (hourGroup incidents h).length ∧
        3 ≤ (hourGroup incidents h).length) ∧
      p = mkTimePattern incidents h ∧
      p.riskScore = min (30 + 5 * (hourGroup incidents h).length) 80 ∧
      p.occurrences = (hourGroup incidents h).length) := by
  constructor
  · intro h h1 h2
    have hne : hourGroup incidents h ≠ [] := by
      intro hc; rw [hc] at h2; simp at h2
    obtain ⟨i, hi⟩ := List.exists_mem_of_ne_nil _ hne
    have hmem := List.mem_filter.mp hi
    have hih : hourOf i.timestamp = h := by simpa using hmem.2
    have hk : h ∈ firstKeys (incidents.map (fun i => hourOf i.timestamp)) := by
      rw [mem_firstKeys]
      exact hih ▸ List.mem_map_of_mem (fun i => hourOf i.timestamp) hmem.1
    apply List.mem_filterMap.mpr
    exact ⟨h, hk, by rw [if_pos ⟨h1, h2⟩]⟩
  · intro p hp
    obtain ⟨h, _, hf⟩ := List.mem_filterMap.mp hp
    by_cases hc : timePatternCond incidents h
    · rw [if_pos hc] at hf
      obtain rfl := Option.some_injective _ hf
      exact ⟨h, hc, rfl, rfl, rfl⟩
    · rw [if_neg hc] at hf
      exact absurd hf (by simp)

/-- C5 (amended), witness: three incidents, all in hour 0, make the detector
emit the hour-0 pattern. -/
theorem claimC5_amended_witness :
    mkTimePattern [mkIncC5 0, mkIncC5 1, mkIncC5 2] 0 ∈
      detectTimeBasedPatterns [mkIncC5 0, mkIncC5 1, mkIncC5 2] :=
  (claimC5_amended [mkIncC5 0, mkIncC5 1, mkIncC5 2]).1 0 (by decide) (by decide)

/-- The stable ascending sort by timestamp that
`incidents.sort((a, b) => new Date(a.timestamp).getTime() - new Date(b.timestamp).getTime())`
performs IN PLACE on its argument array. -/
def sortByTime (l : List Incident) : List Incident :=
  l.insertionSort (fun a b => a.timestamp ≤ b.timestamp)

/-- The 15-minute cascade window, in milliseconds. -/
def cascadeWindow : ℕ := 900000

/-- The pattern record `detectCascadingFailures` emits for a completed run
`g` of incidents separated by gaps of at most 15 minutes. -/
def mkCascadePattern (g : List Incident) : IncidentPattern :=
  { patternId := "cascade_" ++ toString (g.headD default).timestamp
    patternType := .cascadingFailure
    description := toString g.length ++ " incidents within 15 minutes"
    occurrences := g.length
    firstSeen := (g.headD default).timestamp
    lastSeen := (g.getD (g.length - 1) default).timestamp
    affectedComponents := firstKeys (g.map (·.issueKey))
    riskScore := min (60 + 10 * g.length) 100
    recommendation :=
      "Cascading failure detected. Investigate system dependencies and implement circuit breakers."
    relatedIncidents := g.map (·.issueKey) }

/-- One iteration of the cascade loop: extend the current run when the gap to
the previous incident is within the window, otherwise flush the run (emitting
a pattern when it has at least 3 members) and start a new one. -/
def cascadeStep (st : List IncidentPattern × List Incident) (x : Incident) :
    List IncidentPattern × List Incident :=
  match st with
  | (ps, []) => (ps, [x])
  | (ps, g) =>
    if x.timestamp - (g.getD (g.length - 1) default).timestamp ≤ cascadeWindow then
      (ps, g ++ [x])
    else
      (ps ++ (if 3 ≤ g.length then [mkCascadePattern g] else []), [x])

/-- `detectCascadingFailures`.  The source sorts its ARGUMENT in place
(`incidents.sort(...)`, not a copy), so the embedding returns both the
emitted patterns and the state of the caller's array after the call, which is
the stable sort of the input by timestamp. -/
def detectCascadingFailures (incidents : List Incident) :
    List IncidentPattern × List Incident :=
  let sorted := sortByTime incidents
  let st := sorted.foldl cascadeStep ([], [])
  (st.1 ++ (if 3 ≤ st.2.length then [mkCascadePattern st.2] else []), sorted)

/-- `incident.recommendedAction || 'Unknown'`. -/
def actionOf (i : Incident) : String := i.recommendedAction.getD "Unknown"

/-- The group of incidents sharing a recommended action. -/
def actionGroup (incidents : List Incident) (a : String) : List Incident :=
  incidents.filter (fun i => decide (actionOf i = a))

/-- The pattern record `detectRecurringErrors` emits for action `a`; the
group is sorted by timestamp (a fresh per-group array in the source) before
`firstSeen` and `lastSeen` are read. -/
def mkRecurringPattern (incidents : List Incident) (a : String) : IncidentPattern :=
  { patternId := "recurring_" ++ a.toLower
    patternType := .recurringError
    description := "Recurring " ++ a ++ " incidents detected"
    occurrences := (actionGroup incidents a).length
    firstSeen := ((sortByTime (actionGroup incidents a)).headD default).timestamp
    lastSeen := ((sortByTime (actionGroup incidents a)).getD
      ((actionGroup incidents a).length - 1) default).timestamp
    affectedComponents := firstKeys ((actionGroup incidents a).map (·.issueKey))
    riskScore := min (40 + 10 * (actionGroup incidents a).length) 95
    recommendation := "Investigate root cause for " ++ a ++
      " action pattern. Consider implementing permanent fix."
    relatedIncidents := (actionGroup incidents a).map (·.issueKey) }

/-- `detectRecurringErrors`: one pattern per recommended-action group with at
least 3 members, in first-appearance order of the actions. -/
def detectRecurringErrors (incidents : List Incident) : List IncidentPattern :=
  (firstKeys (incidents.map actionOf)).filterMap (fun a =>
    if 3 ≤ (actionGroup incidents a).length then
      some (mkRecurringPattern incidents a)
    else none)

/-- The group of incidents sharing a priority label. -/
def priorityGroup (incidents : List Incident) (p : String) : List Incident :=
  incidents.filter (fun i => decide (i.priority = p))

/-- The pattern record `detectComponentHotspots` emits for priority `p`
(`firstSeen`/`lastSeen` are read from the UNSORTED group here). -/
def mkHotspotPattern (incidents : List Incident) (p : String) : IncidentPattern :=
  { patternId := "hotspot_" ++ p.toLower
    patternType := .componentHotspot
    description := p ++ " priority incidents clustered"
    occurrences := (priorityGroup incidents p).length
    firstSeen := ((priorityGroup incidents p).getD 0 default).timestamp
    lastSeen := ((priorityGroup incidents p).getD
      ((priorityGroup incidents p).length - 1) default).timestamp
    affectedComponents := firstKeys ((priorityGroup incidents p).map (·.issueKey))
    riskScore := min (50 + 8 * (priorityGroup incidents p).length) 100
    recommendation :=
      "Critical component experiencing frequent failures. Prioritize architectural review and refactoring."
    relatedIncidents := (priorityGroup incidents p).map (·.issueKey) }

/-- `detectComponentHotspots`: one pattern per `Highest` or `High` priority
group with at least 5 members. -/
def detectComponentHotspots (incidents : List Incident) : List IncidentPattern :=
  (firstKeys (incidents.map (·.priority))).filterMap (fun p =>
    if 5 ≤ (priorityGroup incidents p).length ∧ (p = "Highest" ∨ p = "High") then
      some (mkHotspotPattern incidents p)
    else none)

/-- The incidents with `(i.suspectCommits || 0) >= 2`. -/
def deployGroup (incidents : List Incident) : List Incident :=
  incidents.filter (fun i => decide (2 ≤ i.suspectCommits))

/-- The single pattern `detectDeploymentCorrelations` can emit. -/
def mkDeployPattern (incidents : List Incident) : IncidentPattern :=
  { patternId := "deployment_correlation"
    patternType := .deploymentCorrelation
    description := toString (deployGroup incidents).length ++
      " incidents correlated with recent deployments"
    occurrences := (deployGroup incidents).length
    firstSeen := ((deployGroup incidents).getD 0 default).timestamp
    lastSeen := ((deployGroup incidents).getD
      ((deployGroup incidents).length - 1) default).timestamp
    affectedComponents := firstKeys ((deployGroup incidents).map (·.issueKey))
    riskScore := min (45 + 7 * (deployGroup incidents).length) 90
    recommendation :=
      "High correlation with deployments. Strengthen CI/CD pipeline, add canary deployments, improve test coverage."
    relatedIncidents := (deployGroup incidents).map (·.issueKey) }

/-- `detectDeploymentCorrelations`: one pattern over all incidents with at
least 2 suspect commits, when at least 3 such incidents exist. -/
def detectDeploymentCorrelations (incidents : List Incident) : List IncidentPattern :=
  if 3 ≤ (deployGroup incidents).length then [mkDeployPattern incidents] else []

/-- The result record of `detectPatterns`.  `analysisDate` is the call
instant (`new Date().toISOString()`), modelled by the epoch value itself. -/
structure PatternDetectionResult where
  patterns : List IncidentPattern
  totalIncidents : ℕ
  analysisDate : ℕ
deriving DecidableEq

/-- `detectPatterns`: with fewer than 3 incidents an empty result; otherwise
the five detectors run in order on the stored list and the concatenation of
their patterns is sorted by risk score descending (stable).  Because
`detectCascadingFailures` sorts the list in place, the deployment detector
already reads the sorted array, and the post-call state of the stored list is
returned as the second component. -/
def detectPatterns (incidents : List Incident) (now : ℕ) :
    PatternDetectionResult × List Incident :=
  if incidents.length < 3 then
    (⟨[], incidents.length, now⟩, incidents)
  else
    let c := detectCascadingFailures incidents
    (⟨(detectRecurringErrors incidents ++ detectTimeBasedPatterns incidents ++
        detectComponentHotspots incidents ++ c.1 ++
        detectDeploymentCorrelations c.2).insertionSort
          (fun a b => b.riskScore ≤ a.riskScore),
      incidents.length, now⟩, c.2)

/-- First C2 incident (later timestamp, listed first). -/
def incBC2 : Incident := ⟨"B", 1, "High", none, 0⟩

/-- Second C2 incident (earlier timestamp, listed second). -/
def incAC2 : Incident := ⟨"A", 0, "High", none, 0⟩

/-- C2: counterexample.  `detectCascadingFailures` sorts its input array in
place; on the two-element list `[incBC2, incAC2]` (timestamps out of order)
the array the caller passed is `[incAC2, incBC2]` after the call — same
elements, different order — refuting the claim that the list is unchanged. -/
theorem claimC2_counterexample :
    (detectCascadingFailures [incBC2, incAC2]).2 ≠ [incBC2, incAC2] ∧
    (detectCascadingFailures [incBC2, incAC2]).2 = [incAC2, incBC2] := by
  refine ⟨by decide, by decide⟩

/-- C2 (amended): no detector adds, removes or modifies an element — the
post-call state of the input array is always a permutation of the input —
and the recurring-error, time-based, component-hotspot and
deployment-correlation detectors do not touch the array at all; but
`detectCascadingFailures` (and therefore `detectPatterns` on 3 or more
incidents) leaves the array stably sorted by timestamp, so the original
order is preserved exactly when the input was already sorted. -/
theorem claimC2_amended (incidents : List Incident) (now : ℕ) :
    (detectCascadingFailures incidents).2.Perm incidents ∧
    (detectPatterns incidents now).2.Perm incidents ∧
    (incidents.Pairwise (fun a b => a.timestamp ≤ b.timestamp) →
      (detectCascadingFailures incidents).2 = incidents ∧
      (detectPatterns incidents now).2 = incidents) := by
  have hperm : (detectCascadingFailures incidents).2.Perm incidents :=
    List.perm_insertionSort _ incidents
  have heq : incidents.Pairwise (fun a b => a.timestamp ≤ b.timestamp) →
      (detectCascadingFailures incidents).2 = incidents := fun hs =>
    List.Sorted.insertionSort_eq hs
  refine ⟨hperm, ?_, fun hs => ⟨heq hs, ?_⟩⟩
  · by_cases h : incidents.length < 3
    · rw [detectPatterns, if_pos h]
    · rw [detectPatterns, if_neg h]
      exact hperm
  · by_cases h : incidents.length < 3
    · rw [detectPatterns, if_pos h]
    · rw [detectPatterns, if_neg h]
      exact heq hs

/-- C2 (amended), witness at a sorted two-element list. -/
theorem claimC2_amended_witness :
    (detectCascadingFailures [incAC2, incBC2]).2.Perm [incAC2, incBC2] ∧
    (detectPatterns [incAC2, incBC2] 0).2.Perm [incAC2, incBC2] ∧
    ([incAC2, incBC2].Pairwise (fun a b => a.timestamp ≤ b.timestamp) →
      (detectCascadingFailures [incAC2, incBC2]).2 = [incAC2, incBC2] ∧
      (detectPatterns [incAC2, incBC2] 0).2 = [incAC2, incBC2]) :=
  claimC2_amended [incAC2, incBC2] 0

/-- Day of week of an epoch-milliseconds timestamp
(`new Date(t).getDay()`, 0 = Sunday), pinned to UTC as the spec directs;
epoch day 0 was a Thursday. -/
def dayOfWeek (t : ℕ) : ℕ := (t / 86400000 + 4) % 7

/-- A `DataPoint` that is in range is never the default; the default carries
timestamp 0 and value 0 like the `|| 0` fallbacks of the source. -/
instance : Inhabited DataPoint := ⟨⟨0, 0⟩⟩

/-- Day of week of sample `i` of the series. -/
def dowAt (data : List DataPoint) (i : ℕ) : ℕ :=
  dayOfWeek ((data.getD i default).timestamp)

/-- The moving-average window size of `decomposeTimeSeries`:
`Math.min(14, Math.floor(n / 2))`. -/
def trendWindowSize (n : ℕ) : ℕ := min 14 (n / 2)

/-- One entry of the trend component: the mean of
`values.slice(max(0, i - ⌊w/2⌋), min(n, i + ⌈w/2⌉))`. -/
def trendAt (values : List ℚ) (i : ℕ) : ℚ :=
  meanOf ((values.drop (i - trendWindowSize values.length / 2)).take
    (min values.length (i + (trendWindowSize values.length + 1) / 2) -
      (i - trendWindowSize values.length / 2)))

/-- One entry of the detrended series: `values[i] - trend[i]`. -/
def detrendedAt (data : List DataPoint) (i : ℕ) : ℚ :=
  (data.map (·.value)).getD i 0 - trendAt (data.map (·.value)) i

/-- The indices of the samples that fall on day-of-week `d`. -/
def dowIndices (data : List DataPoint) (d : ℕ) : List ℕ :=
  (List.range data.length).filter (fun i => decide (dowAt data i = d))

/-- The averaged weekly profile entry for day-of-week `d`
(`weeklyCount[d] > 0 ? weeklyPattern[d] / weeklyCount[d] : 0`). -/
def weeklyAvg (data : List DataPoint) (d : ℕ) : ℚ :=
  if 0 < (dowIndices data d).length then
    ((dowIndices data d).map (detrendedAt data)).sum / (dowIndices data d).length
  else 0

/-- One entry of the seasonal component: the weekly profile value of the
day-of-week of sample `i`. -/
def seasonalAt (data : List DataPoint) (i : ℕ) : ℚ :=
  weeklyAvg data (dowAt data i)

/-- One entry of the residual: `values[i] - trend[i] - seasonal[i]`. -/
def residualAt (data : List DataPoint) (i : ℕ) : ℚ :=
  (data.map (·.value)).getD i 0 - trendAt (data.map (·.value)) i - seasonalAt data i

/-- The decomposition record (`SeasonalDecomposition` in the source). -/
structure SeasonalDecomposition where
  trend : List ℚ
  seasonal : List ℚ
  residual : List ℚ
  strength : ℚ
deriving DecidableEq

/-- `decomposeTimeSeries`: below 14 samples the identity decomposition;
otherwise a centered-moving-average trend, a weekly (day-of-week) seasonal
profile broadcast back onto the samples, the pointwise residual, and the
strength `sv / (sv + rv || 1)` (mean-of-squares variances) capped at 1. -/
def decomposeTimeSeries (data : List DataPoint) : SeasonalDecomposition :=
  if data.length < 14 then
    ⟨data.map (·.value), List.replicate data.length 0, List.replicate data.length 0, 0⟩
  else
    ⟨(List.range data.length).map (trendAt (data.map (·.value))),
      (List.range data.length).map (seasonalAt data),
      (List.range data.length).map (residualAt data),
      min ((((List.range data.length).map (seasonalAt data)).map (fun v => v ^ 2)).sum /
            data.length /
          jsOr ((((List.range data.length).map (seasonalAt data)).map (fun v => v ^ 2)).sum /
              data.length +
            (((List.range data.length).map (residualAt data)).map (fun v => v ^ 2)).sum /
              data.length) 1) 1⟩

lemma getD_range_map (f : ℕ → ℚ) {n i : ℕ} (h : i < n) :
    ((List.range n).map f).getD i 0 = f i := by
  rw [List.getD_eq_getElem?_getD]
  simp [List.getElem?_map, List.getElem?_range, h]

/-- C7: for every index of the input, trend + seasonal + residual equals the
original value exactly (in exact arithmetic), the three component sequences
have the length of the input, and below 14 samples the decomposition is the
documented identity default. -/
theorem claimC7_reconstruction (data : List DataPoint) (i : ℕ) (h : i < data.length) :
    (decomposeTimeSeries data).trend.getD i 0 + (decomposeTimeSeries data).seasonal.getD i 0 +
      (decomposeTimeSeries data).residual.getD i 0 = (data.map (·.value)).getD i 0 ∧
    (decomposeTimeSeries data).trend.length = data.length ∧
    (decomposeTimeSeries data).seasonal.length = data.length ∧
    (decomposeTimeSeries data).residual.length = data.length ∧
    (data.length < 14 →
      (decomposeTimeSeries data).trend = data.map (·.value) ∧
      (decomposeTimeSeries data).seasonal = List.replicate data.length 0 ∧
      (decomposeTimeSeries data).residual = List.replicate data.length 0 ∧
      (decomposeTimeSeries data).strength = 0) := by
  by_cases hn : data.length < 14
  · have e : decomposeTimeSeries data =
        ⟨data.map (·.value), List.replicate data.length 0,
          List.replicate data.length 0, 0⟩ := by
      rw [decomposeTimeSeries, if_pos hn]
    rw [e]
    refine ⟨?_, by simp, by simp, by simp, fun _ => ⟨rfl, rfl, rfl, rfl⟩⟩
    have hz : (List.replicate data.length (0 : ℚ)).getD i 0 = 0 := by
      rw [List.getD_eq_getElem?_getD]
      simp
    rw [hz]
    ring
  · have e : decomposeTimeSeries data =
        ⟨(List.range data.length).map (trendAt (data.map (·.value))),
          (List.range data.length).map (seasonalAt data),
          (List.range data.length).map (residualAt data),
          min ((((List.range data.length).map (seasonalAt data)).map (fun v => v ^ 2)).sum /
                data.length /
              jsOr ((((List.range data.length).map (seasonalAt data)).map
                    (fun v => v ^ 2)).sum / data.length +
                (((List.range data.length).map (residualAt data)).map
                    (fun v => v ^ 2)).sum / data.length) 1) 1⟩ := by
      rw [decomposeTimeSeries, if_neg hn]
    rw [e]
    refine ⟨?_, by simp, by simp, by simp, fun hlt => absurd hlt hn⟩
    rw [getD_range_map _ h, getD_range_map _ h, getD_range_map _ h, residualAt]
    ring

/-- C7, witness at a single sample. -/
theorem claimC7_reconstruction_witness :
    (decomposeTimeSeries [⟨0, 5⟩]).trend.getD 0 0 +
      (decomposeTimeSeries [⟨0, 5⟩]).seasonal.getD 0 0 +
      (decomposeTimeSeries [⟨0, 5⟩]).residual.getD 0 0
        = ([(⟨0, 5⟩ : DataPoint)].map (·.value)).getD 0 0 ∧
    (decomposeTimeSeries [⟨0, 5⟩]).trend.length = [(⟨0, 5⟩ : DataPoint)].length ∧
    (decomposeTimeSeries [⟨0, 5⟩]).seasonal.length = [(⟨0, 5⟩ : DataPoint)].length ∧
    (decomposeTimeSeries [⟨0, 5⟩]).residual.length = [(⟨0, 5⟩ : DataPoint)].length ∧
    ([(⟨0, 5⟩ : DataPoint)].length < 14 →
      (decomposeTimeSeries [⟨0, 5⟩]).trend = [(⟨0, 5⟩ : DataPoint)].map (·.value) ∧
      (decomposeTimeSeries [⟨0, 5⟩]).seasonal = List.replicate [(⟨0, 5⟩ : DataPoint)].length 0 ∧
      (decomposeTimeSeries [⟨0, 5⟩]).residual = List.replicate [(⟨0, 5⟩ : DataPoint)].length 0 ∧
      (decomposeTimeSeries [⟨0, 5⟩]).strength = 0) :=
  claimC7_reconstruction [⟨0, 5⟩] 0 (by decide)

/-- The three forecast horizons (`ForecastPeriod`). -/
inductive ForecastPeriod where
  | d7
  | d14
  | d30
deriving DecidableEq

/-- `getPeriodDays`. -/
def getPeriodDays : ForecastPeriod → ℕ
  | .d7 => 7
  | .d14 => 14
  | .d30 => 30

/-- The engineered feature set of `engineerFeatures`. -/
structure Features where
  values : List ℚ
  lag1 : List ℚ
  lag7 : List ℚ
  rollingMean7 : List ℚ
  rollingStd7 : List ℚ

/-- The trailing window `values.slice(max(0, i - 6), i + 1)` of the rolling
statistics. -/
def rollingWindow (values : List ℚ) (i : ℕ) : List ℚ :=
  (values.drop (i - 6)).take (i + 1 - (i - 6))

/-- `engineerFeatures`: lag-1 and lag-7 series (first entries backfilled with
`values[0] || 0`), and 7-wide trailing rolling mean and standard deviation.
The standard deviation is the square root of the rolling variance; it is
consumed by no downstream model, and the square root is abstracted by
`sqrtFn`. -/
def engineerFeatures (sqrtFn : ℚ → ℚ) (data : List DataPoint) : Features :=
  { values := data.map (·.value)
    lag1 := (data.map (·.value)).getD 0 0 :: (data.map (·.value)).dropLast
    lag7 := List.replicate 7 ((data.map (·.value)).getD 0 0) ++
      (data.map (·.value)).take (data.length - 7)
    rollingMean7 := (List.range data.length).map
      (fun i => meanOf (rollingWindow (data.map (·.value)) i))
    rollingStd7 := (List.range data.length).map
      (fun i => sqrtFn (varOf (rollingWindow (data.map (·.value)) i))) }

/-- `forecastARIMA`: an AR(1) fit of `values[i]` against `lag1[i]` over
`i = 1 .. n-1` by the least-squares formulas of the source (note that the
formulas divide by `n`, the full length, not by the `n - 1` summed terms),
blended `0.6 / 0.4` with the last rolling mean
(`rollingMean7[n - 1] || lastValue`), clamped at zero.  Below 10 points the
last value is returned unchanged. -/
def forecastARIMA (f : Features) : ℚ :=
  if f.values.length < 10 then f.values.getD (f.values.length - 1) 0
  else
    max 0 (3/5 * ((((f.values.length : ℚ) *
        ((List.range' 1 (f.values.length - 1)).map
          (fun i => f.lag1.getD i 0 * f.values.getD i 0)).sum -
        ((List.range' 1 (f.values.length - 1)).map (fun i => f.lag1.getD i 0)).sum *
        ((List.range' 1 (f.values.length - 1)).map (fun i => f.values.getD i 0)).sum) /
        jsOr ((f.values.length : ℚ) *
          ((List.range' 1 (f.values.length - 1)).map
            (fun i => f.lag1.getD i 0 * f.lag1.getD i 0)).sum -
          ((List.range' 1 (f.values.length - 1)).map (fun i => f.lag1.getD i 0)).sum ^ 2) 1) *
        f.values.getD (f.values.length - 1) 0 +
        (((List.range' 1 (f.values.length - 1)).map (fun i => f.values.getD i 0)).sum -
          (((f.values.length : ℚ) *
            ((List.range' 1 (f.values.length - 1)).map
              (fun i => f.lag1.getD i 0 * f.values.getD i 0)).sum -
            ((List.range' 1 (f.values.length - 1)).map (fun i => f.lag1.getD i 0)).sum *
            ((List.range' 1 (f.values.length - 1)).map (fun i => f.values.getD i 0)).sum) /
            jsOr ((f.values.length : ℚ) *
              ((List.range' 1 (f.values.length - 1)).map
                (fun i => f.lag1.getD i 0 * f.lag1.getD i 0)).sum -
              ((List.range' 1 (f.values.length - 1)).map
                (fun i => f.lag1.getD i 0)).sum ^ 2) 1) *
            ((List.range' 1 (f.values.length - 1)).map (fun i => f.lag1.getD i 0)).sum) /
          (f.values.length : ℚ)) +
      2/5 * jsOr (f.rollingMean7.getD (f.values.length - 1) 0)
        (f.values.getD (f.values.length - 1) 0))

/-- `forecastProphet`: linear extrapolation of the last-7-entry trend slope
by `periodDays`, plus the average seasonal component of the day-of-week the
forecast date (`Date.now() + periodDays`) falls on, weighted by the
decomposition strength, clamped at zero.  Below 5 trend entries the last data
value (`data[n-1]?.value || 0`). -/
def forecastProphet (deco : SeasonalDecomposition) (data : List DataPoint)
    (period : ForecastPeriod) (now : ℕ) : ℚ :=
  if deco.trend.length < 5 then (data.getD (deco.trend.length - 1) default).value
  else
    max 0 (deco.trend.getD (deco.trend.length - 1) 0 +
      ((deco.trend.drop (deco.trend.length - 7)).getD
          ((deco.trend.drop (deco.trend.length - 7)).length - 1) 0 -
        (deco.trend.drop (deco.trend.length - 7)).getD 0 0) /
        jsOr ((deco.trend.drop (deco.trend.length - 7)).length : ℚ) 1 *
        (getPeriodDays period : ℚ) +
      (if 0 < (dowIndices data (dayOfWeek (now + getPeriodDays period * 86400000))).length
        then ((dowIndices data (dayOfWeek (now + getPeriodDays period * 86400000))).map
            (fun i => deco.seasonal.getD i 0)).sum /
          (dowIndices data (dayOfWeek (now + getPeriodDays period * 86400000))).length
        else 0) * deco.strength)

/-- The final Holt state `(level, trend)` after the sample-by-sample updates
`level = 0.3 * v + 0.7 * (level + trend)`,
`trend = 0.1 * (level - prevLevel) + 0.9 * trend` of
`forecastExponentialSmoothing`. -/
def holtState (values : List ℚ) : ℚ × ℚ :=
  (values.drop 1).foldl
    (fun (st : ℚ × ℚ) v =>
      (3/10 * v + 7/10 * (st.1 + st.2),
        1/10 * ((3/10 * v + 7/10 * (st.1 + st.2)) - st.1) + 9/10 * st.2))
    (values.getD 0 0, 0)

/-- `forecastExponentialSmoothing`: Holt linear trend with `alpha = 0.3`,
`beta = 0.1`, iterated over the series, then forecasting
`level + h * trend` with `h = ⌈periodDays / 7⌉` weeks, clamped at zero. -/
def forecastExponentialSmoothing (data : List DataPoint) (period : ForecastPeriod) : ℚ :=
  if data.length = 0 then 0
  else
    max 0 ((holtState (data.map (·.value))).1 +
      ((((getPeriodDays period + 6) / 7 : ℕ) : ℚ)) * (holtState (data.map (·.value))).2)

/-- The normalized time axis of `forecastLinearRegression`: days since the
first sample (`(t - minTimestamp) / 86400000`, exact rational division). -/
def daysAxis (data : List DataPoint) : List ℚ :=
  data.map (fun d => ((d.timestamp : ℚ) - ((data.getD 0 default).timestamp : ℚ)) / 86400000)

/-- `forecastLinearRegression`: ordinary least squares of value against
elapsed days, extrapolated to `lastDay + periodDays`, clamped at zero.
Below 2 points the first value (`data[0]?.value || 0`). -/
def forecastLinearRegression (data : List DataPoint) (period : ForecastPeriod) : ℚ :=
  if data.length < 2 then (data.getD 0 default).value
  else
    max 0 ((((data.length : ℚ) *
        ((List.range data.length).map
          (fun i => (daysAxis data).getD i 0 * (data.map (·.value)).getD i 0)).sum -
        (daysAxis data).sum * (data.map (·.value)).sum) /
        jsOr ((data.length : ℚ) *
          ((daysAxis data).map (fun x => x * x)).sum - (daysAxis data).sum ^ 2) 1) *
        ((daysAxis data).getD (data.length - 1) 0 + (getPeriodDays period : ℚ)) +
      ((data.map (·.value)).sum -
        (((data.length : ℚ) *
          ((List.range data.length).map
            (fun i => (daysAxis data).getD i 0 * (data.map (·.value)).getD i 0)).sum -
          (daysAxis data).sum * (data.map (·.value)).sum) /
          jsOr ((data.length : ℚ) *
            ((daysAxis data).map (fun x => x * x)).sum - (daysAxis data).sum ^ 2) 1) *
          (daysAxis data).sum) / (data.length : ℚ))

/-- `calculatePredictionInterval`: `prediction ± 1.96 * stddev` of the four
sub-forecasts, the lower bound clamped at zero.  The square root of the
ensemble variance is abstracted by `sqrtFn` (1.96 is kept as 49/25). -/
def calculatePredictionInterval (sqrtFn : ℚ → ℚ) (prediction : ℚ)
    (preds : List ℚ) : ℚ × ℚ :=
  (max 0 (prediction - 49/25 * sqrtFn (varOf preds)),
    prediction + 49/25 * sqrtFn (varOf preds))

/-- `calculateConfidenceScore`: start at 100, subtract half the MAPE,
subtract `0.5 * (30 - n)` for fewer than 30 samples, add ten times the
seasonality strength, subtract 20 on drift, clamp to `[0, 100]`. -/
def calculateConfidenceScore (data : List DataPoint) (mape strength : ℚ)
    (drift : Bool) : ℚ :=
  max 0 (min 100
    ((if drift then
        (if data.length < 30 then
          100 - mape * (1/2) - (30 - (data.length : ℚ)) * (1/2)
        else 100 - mape * (1/2)) + strength * 10 - 20
      else
        (if data.length < 30 then
          100 - mape * (1/2) - (30 - (data.length : ℚ)) * (1/2)
        else 100 - mape * (1/2)) + strength * 10)))

/-- The `Math.floor(n * 0.7)` split of `detectDrift`, embedded as the exact
`7n/10`.  (The double product `n * 0.7` can land one ulp below the exact
value and floor one lower for some lengths, e.g. 50; no claim depends on the
split point.) -/
def driftSplit (n : ℕ) : ℕ := 7 * n / 10

/-- `detectDrift`: below 20 samples no drift; otherwise split at 70 percent
and flag a drift when `|mean(recent) - mean(early)| > 0.3 * std(early)`,
embedded as the exact comparison of squares. -/
def detectDrift (data : List DataPoint) : Bool :=
  if data.length < 20 then false
  else
    decide ((9 : ℚ)/100 *
        varOf ((data.take (driftSplit data.length)).map (·.value)) <
      (meanOf ((data.drop (driftSplit data.length)).map (·.value)) -
        meanOf ((data.take (driftSplit data.length)).map (·.value))) ^ 2)

/-- The samples of the trailing `days`-day window of `calculateCurrentValue`
(`data.filter(d => d.timestamp > Date.now() - days * 86400000)`). -/
def recentWindow (data : List DataPoint) (days now : ℕ) : List DataPoint :=
  data.filter (fun d => decide ((now : ℤ) - (days : ℤ) * 86400000 < (d.timestamp : ℤ)))

/-- `calculateCurrentValue`: the mean of the samples of the trailing window,
or 0 when the window is empty. -/
def calculateCurrentValue (data : List DataPoint) (days now : ℕ) : ℚ :=
  if 0 < (recentWindow data days now).length then
    ((recentWindow data days now).map (·.value)).sum / (recentWindow data days now).length
  else 0

/-- The prediction interval of a `ForecastResult`. -/
structure PredictionInterval where
  lower : ℚ
  upper : ℚ
deriving DecidableEq

/-- The full forecast record (`ForecastResult`).  `generatedAt` is the ISO
rendering of the call instant (`new Date().toISOString()`), modelled by the
epoch value itself. -/
structure ForecastResult where
  metric : String
  currentValue : ℚ
  predictedValue : ℚ
  confidence : ℚ
  predictionInterval : PredictionInterval
  trend : TrendDirection
  changePercent : ℚ
  period : ForecastPeriod
  modelAccuracy : ℚ
  driftDetected : Bool
  seasonalityStrength : ℚ
  generatedAt : ℕ
deriving DecidableEq

/-- `createDefaultForecast`: the conservative record returned on
insufficient data (and on internal errors). -/
def createDefaultForecast (metric : String) (value : ℚ) (period : ForecastPeriod)
    (now : ℕ) : ForecastResult :=
  { metric := metric
    currentValue := value
    predictedValue := value
    confidence := 50
    predictionInterval := ⟨value * (4/5), value * (6/5)⟩
    trend := .stable
    changePercent := 0
    period := period
    modelAccuracy := 20
    driftDetected := false
    seasonalityStrength := 0
    generatedAt := now }

/-- An MTTR record as `forecastMTTR` reads it from storage. -/
structure MTTRRecord where
  resolved : Bool
  mttr : Option ℚ
  resolvedAt : Option ℕ
  createdAt : ℕ
deriving DecidableEq

/-- `records.filter(r => r.status === 'resolved' && r.mttr !== undefined)`. -/
def usableRecords (records : List MTTRRecord) : List MTTRRecord :=
  records.filter (fun r => r.resolved && r.mttr.isSome)

/-- One raw sample: `{timestamp: new Date(r.resolvedAt || r.createdAt).getTime(),
value: r.mttr || 0}`. -/
def recordPoint (r : MTTRRecord) : DataPoint :=
  ⟨r.resolvedAt.getD r.createdAt, r.mttr.getD 0⟩

/-- The raw MTTR series: usable records mapped to samples and stably sorted
by timestamp. -/
def mttrRaw (records : List MTTRRecord) : List DataPoint :=
  ((usableRecords records).map recordPoint).insertionSort
    (fun a b => a.timestamp ≤ b.timestamp)

/-- The cleaned MTTR series: the raw series after outlier removal. -/
def mttrSeries (records : List MTTRRecord) : List DataPoint :=
  (detectAndRemoveOutliers (mttrRaw records)).cleaned

/-- The ensemble prediction of `forecastMTTR`: the four sub-forecasts under
the fixed weights 0.35 / 0.30 / 0.20 / 0.15. -/
def mttrPredicted (sqrtFn : ℚ → ℚ) (records : List MTTRRecord)
    (period : ForecastPeriod) (now : ℕ) : ℚ :=
  forecastARIMA (engineerFeatures sqrtFn (mttrSeries records)) * (7/20) +
    forecastProphet (decomposeTimeSeries (mttrSeries records)) (mttrSeries records)
      period now * (3/10) +
    forecastExponentialSmoothing (mttrSeries records) period * (1/5) +
    forecastLinearRegression (mttrSeries records) period * (3/20)

/-- The confidence score of `forecastMTTR`, computed from the cleaned series,
its MAPE, the decomposition strength and the drift flag; it does not read the
clock. -/
def mttrConfidence (records : List MTTRRecord) : ℚ :=
  calculateConfidenceScore (mttrSeries records) (calculateMAPE (mttrSeries records))
    (decomposeTimeSeries (mttrSeries records)).strength (detectDrift (mttrSeries records))

/-- `forecastMTTR`, as a function of the stored records, the period and the
call instant `now` (`Date.now()`): below 15 usable records the documented
default; otherwise the full pipeline of the source, with every field rounded
exactly as the source rounds it. -/
def forecastMTTRCore (sqrtFn : ℚ → ℚ) (records : List MTTRRecord)
    (period : ForecastPeriod) (now : ℕ) : ForecastResult :=
  if (usableRecords records).length < 15 then
    createDefaultForecast "MTTR" 0 period now
  else
    { metric := "MTTR"
      currentValue := jsRound (calculateCurrentValue (mttrSeries records) 7 now)
      predictedValue := jsRound (mttrPredicted sqrtFn records period now)
      confidence := jsRound (mttrConfidence records)
      predictionInterval :=
        ⟨jsRound (calculatePredictionInterval sqrtFn (mttrPredicted sqrtFn records period now)
            [forecastARIMA (engineerFeatures sqrtFn (mttrSeries records)),
              forecastProphet (decomposeTimeSeries (mttrSeries records))
                (mttrSeries records) period now,
              forecastExponentialSmoothing (mttrSeries records) period,
              forecastLinearRegression (mttrSeries records) period]).1,
          jsRound (calculatePredictionInterval sqrtFn (mttrPredicted sqrtFn records period now)
            [forecastARIMA (engineerFeatures sqrtFn (mttrSeries records)),
              forecastProphet (decomposeTimeSeries (mttrSeries records))
                (mttrSeries records) period now,
              forecastExponentialSmoothing (mttrSeries records) period,
              forecastLinearRegression (mttrSeries records) period]).2⟩
      trend := determineTrend
        (changePercentOf (mttrPredicted sqrtFn records period now)
          (calculateCurrentValue (mttrSeries records) 7 now))
        (mttrConfidence records)
      changePercent := jsRound
        (changePercentOf (mttrPredicted sqrtFn records period now)
          (calculateCurrentValue (mttrSeries records) 7 now) * 100) / 100
      period := period
      modelAccuracy := jsRound (calculateMAPE (mttrSeries records) * 100) / 100
      driftDetected := detectDrift (mttrSeries records)
      seasonalityStrength := jsRound ((decomposeTimeSeries (mttrSeries records)).strength * 100)
      generatedAt := now }

/-- C9: with fewer than 15 usable records the forecast never fails and
returns exactly the documented default: current and predicted value 0,
confidence 50, stable trend, change 0, model accuracy 20, no drift,
seasonality strength 0. -/
theorem claimC9_default (sqrtFn : ℚ → ℚ) (records : List MTTRRecord)
    (period : ForecastPeriod) (now : ℕ)
    (h : (usableRecords records).length < 15) :
    forecastMTTRCore sqrtFn records period now = createDefaultForecast "MTTR" 0 period now ∧
    (forecastMTTRCore sqrtFn records period now).currentValue = 0 ∧
    (forecastMTTRCore sqrtFn records period now).predictedValue = 0 ∧
    (forecastMTTRCore sqrtFn records period now).confidence = 50 ∧
    (forecastMTTRCore sqrtFn records period now).trend = .stable ∧
    (forecastMTTRCore sqrtFn records period now).changePercent = 0 ∧
    (forecastMTTRCore sqrtFn records period now).modelAccuracy = 20 ∧
    (forecastMTTRCore sqrtFn records period now).driftDetected = false ∧
    (forecastMTTRCore sqrtFn records period now).seasonalityStrength = 0 := by
  have e : forecastMTTRCore sqrtFn records period now =
      createDefaultForecast "MTTR" 0 period now := by
    rw [forecastMTTRCore, if_pos h]
  rw [e]
  exact ⟨rfl, rfl, rfl, rfl, rfl, rfl, rfl, rfl, rfl⟩

/-- C9, witness at an empty record store. -/
theorem claimC9_default_witness :
    forecastMTTRCore (fun _ => 0) [] .d7 0 = createDefaultForecast "MTTR" 0 .d7 0 ∧
    (forecastMTTRCore (fun _ => 0) [] .d7 0).currentValue = 0 ∧
    (forecastMTTRCore (fun _ => 0) [] .d7 0).predictedValue = 0 ∧
    (forecastMTTRCore (fun _ => 0) [] .d7 0).confidence = 50 ∧
    (forecastMTTRCore (fun _ => 0) [] .d7 0).trend = .stable ∧
    (forecastMTTRCore (fun _ => 0) [] .d7 0).changePercent = 0 ∧
    (forecastMTTRCore (fun _ => 0) [] .d7 0).modelAccuracy = 20 ∧
    (forecastMTTRCore (fun _ => 0) [] .d7 0).driftDetected = false ∧
    (forecastMTTRCore (fun _ => 0) [] .d7 0).seasonalityStrength = 0 :=
  claimC9_default (fun _ => 0) [] .d7 0 (by decide)

/-- Fifteen daily samples, constant at 100 (days 0 to 14 in epoch ms). -/
def pointsC1 : List DataPoint :=
  [⟨0, 100⟩, ⟨86400000, 100⟩, ⟨172800000, 100⟩, ⟨259200000, 100⟩, ⟨345600000, 100⟩,
   ⟨432000000, 100⟩, ⟨518400000, 100⟩, ⟨604800000, 100⟩, ⟨691200000, 100⟩,
   ⟨777600000, 100⟩, ⟨864000000, 100⟩, ⟨950400000, 100⟩, ⟨1036800000, 100⟩,
   ⟨1123200000, 100⟩, ⟨1209600000, 100⟩]

/-- Fifteen resolved MTTR records, one per day, all with MTTR 100 minutes. -/
def recordsC1 : List MTTRRecord :=
  [⟨true, some 100, some 0, 0⟩, ⟨true, some 100, some 86400000, 0⟩,
   ⟨true, some 100, some 172800000, 0⟩, ⟨true, some 100, some 259200000, 0⟩,
   ⟨true, some 100, some 345600000, 0⟩, ⟨true, some 100, some 432000000, 0⟩,
   ⟨true, some 100, some 518400000, 0⟩, ⟨true, some 100, some 604800000, 0⟩,
   ⟨true, some 100, some 691200000, 0⟩, ⟨true, some 100, some 777600000, 0⟩,
   ⟨true, some 100, some 864000000, 0⟩, ⟨true, some 100, some 950400000, 0⟩,
   ⟨true, some 100, some 1036800000, 0⟩, ⟨true, some 100, some 1123200000, 0⟩,
   ⟨true, some 100, some 1209600000, 0⟩]

/-- The values of `pointsC1`. -/
def valsC1 : List ℚ :=
  [100, 100, 100, 100, 100, 100, 100, 100, 100, 100, 100, 100, 100, 100, 100]

lemma husableC1 : usableRecords recordsC1 = recordsC1 := rfl

lemma hrawC1 : mttrRaw recordsC1 = pointsC1 := rfl

lemma hvalsC1 : pointsC1.map (·.value) = valsC1 := rfl

lemma meanC1 : meanOf valsC1 = 100 := by norm_num [meanOf, valsC1]

lemma varC1 : varOf valsC1 = 0 := by
  simp only [varOf, meanC1]
  norm_num [valsC1]

lemma sortedC1 : sortedValues valsC1 = valsC1 := by
  norm_num [sortedValues, valsC1, List.insertionSort, List.orderedInsert]

lemma q1C1 : q1Of valsC1 = 100 := by
  simp only [q1Of, sortedC1]
  norm_num [valsC1]

lemma q3C1 : q3Of valsC1 = 100 := by
  simp only [q3Of, sortedC1]
  norm_num [valsC1]

lemma flagC1 : outlierFlag valsC1 100 = false := by
  simp only [outlierFlag, zFlag, iqrFlag, meanC1, varC1, q1C1, q3C1]
  norm_num

lemma hseriesC1 : mttrSeries recordsC1 = pointsC1 := by
  have h : ¬ pointsC1.length < 10 := by decide
  have e : detectAndRemoveOutliers pointsC1 =
      ⟨pointsC1, pointsC1.filter (fun d => ! outlierFlag (pointsC1.map (·.value)) d.value),
        pointsC1.filter (fun d => outlierFlag (pointsC1.map (·.value)) d.value),
        (pointsC1.filter (fun d => outlierFlag (pointsC1.map (·.value)) d.value)).length⟩ := by
    simp [detectAndRemoveOutliers, h]
  rw [mttrSeries, hrawC1, e]
  show pointsC1.filter (fun d => ! outlierFlag (pointsC1.map (·.value)) d.value) = pointsC1
  simp only [hvalsC1]
  simp [pointsC1, List.filter_cons, flagC1]

lemma hrecentA : recentWindow pointsC1 7 1296000000 =
    [⟨777600000, 100⟩, ⟨864000000, 100⟩, ⟨950400000, 100⟩, ⟨1036800000, 100⟩,
     ⟨1123200000, 100⟩, ⟨1209600000, 100⟩] := rfl

lemma hrecentB : recentWindow pointsC1 7 3000000000 = [] := rfl

lemma hcvA : calculateCurrentValue pointsC1 7 1296000000 = 100 := by
  rw [calculateCurrentValue, hrecentA]
  norm_num

lemma hcvB : calculateCurrentValue pointsC1 7 3000000000 = 0 := by
  rw [calculateCurrentValue, hrecentB]
  norm_num

/-- C1: counterexample.  On the same fifteen stored records, two calls of the
full forecast at different clock instants (`Date.now()`) return different
results: the 7-day current-value window holds the last six samples at the
first instant (`currentValue = 100`) and is empty at the later instant
(`currentValue = 0`).  The full forecast is therefore not a function of the
input series and period alone. -/
theorem claimC1_counterexample :
    (forecastMTTRCore (fun _ => 0) recordsC1 .d7 1296000000).currentValue = 100 ∧
    (forecastMTTRCore (fun _ => 0) recordsC1 .d7 3000000000).currentValue = 0 ∧
    forecastMTTRCore (fun _ => 0) recordsC1 .d7 1296000000 ≠
      forecastMTTRCore (fun _ => 0) recordsC1 .d7 3000000000 := by
  have hcond : ¬ (usableRecords recordsC1).length < 15 := by
    rw [husableC1]; decide
  have h1 : (forecastMTTRCore (fun _ => 0) recordsC1 .d7 1296000000).currentValue = 100 := by
    rw [forecastMTTRCore, if_neg hcond]
    show jsRound (calculateCurrentValue (mttrSeries recordsC1) 7 1296000000) = 100
    rw [hseriesC1, hcvA, jsRound]
    norm_num
  have h2 : (forecastMTTRCore (fun _ => 0) recordsC1 .d7 3000000000).currentValue = 0 := by
    rw [forecastMTTRCore, if_neg hcond]
    show jsRound (calculateCurrentValue (mttrSeries recordsC1) 7 3000000000) = 0
    rw [hseriesC1, hcvB, jsRound]
    norm_num
  refine ⟨h1, h2, ?_⟩
  intro he
  rw [he] at h1
  rw [h1] at h2
  norm_num at h2

/-- C1 (amended): the cleaner and the decomposer take only the series (their
determinism is structural: they read no clock), and for a fixed call instant
the full forecast is a deterministic function of records, period and that
instant; but the forecast does read the clock, through the current-value
cutoff, the Prophet future day-of-week and the `generatedAt` stamp, so only
its `modelAccuracy`, `driftDetected`, `seasonalityStrength` and `confidence`
fields are functions of the input alone. -/
theorem claimC1_amended (sqrtFn : ℚ → ℚ) (records : List MTTRRecord)
    (period : ForecastPeriod) (now1 now2 : ℕ) :
    (forecastMTTRCore sqrtFn records period now1).modelAccuracy =
      (forecastMTTRCore sqrtFn records period now2).modelAccuracy ∧
    (forecastMTTRCore sqrtFn records period now1).driftDetected =
      (forecastMTTRCore sqrtFn records period now2).driftDetected ∧
    (forecastMTTRCore sqrtFn records period now1).seasonalityStrength =
      (forecastMTTRCore sqrtFn records period now2).seasonalityStrength ∧
    (forecastMTTRCore sqrtFn records period now1).confidence =
      (forecastMTTRCore sqrtFn records period now2).confidence := by
  by_cases h : (usableRecords records).length < 15 <;>
    simp [forecastMTTRCore, h, createDefaultForecast]

/-- C1 (amended), witness at the concrete records and instants of the
counterexample. -/
theorem claimC1_amended_witness :
    (forecastMTTRCore (fun _ => 0) recordsC1 .d7 1296000000).modelAccuracy =
      (forecastMTTRCore (fun _ => 0) recordsC1 .d7 3000000000).modelAccuracy ∧
    (forecastMTTRCore (fun _ => 0) recordsC1 .d7 1296000000).driftDetected =
      (forecastMTTRCore (fun _ => 0) recordsC1 .d7 3000000000).driftDetected ∧
    (forecastMTTRCore (fun _ => 0) recordsC1 .d7 1296000000).seasonalityStrength =
      (forecastMTTRCore (fun _ => 0) recordsC1 .d7 3000000000).seasonalityStrength ∧
    (forecastMTTRCore (fun _ => 0) recordsC1 .d7 1296000000).confidence =
      (forecastMTTRCore (fun _ => 0) recordsC1 .d7 3000000000).confidence :=
  claimC1_amended (fun _ => 0) recordsC1 .d7 1296000000 3000000000

end PitWall
